import Mathlib

/-!
Verification of the exchange-rate extraction core of the
`projeto_api_etl_compass` ETL pipeline.

The development shallowly embeds the rate-extraction modules
(`src/etl/exchangerates.py`, `src/etl/extractors.py`, `src/etl/extractor.py`,
`src/etl/transformer_rates.py`) as executable Lean functions and proves the
behavioral claims about provider fallback, retry, batching, input sanitation,
response normalization and output ordering.

Modelling conventions:
* JSON bodies are the inductive `Compass.JVal`; pandas DataFrames are lists of
  row structures; a missing value (NaN / NaT) is `Option.none`.
* HTTP is abstracted by a deterministic environment mapping each logical
  request to the outcome of its n-th attempt, as the spec itself suggests
  ("verify via a fetch primitive mock").  Sleeping between retries and
  logging are not modelled (no observable data flow).
* Python strings are Lean `String`s; all string operations are re-implemented
  over the underlying character list so that every definition evaluates inside
  the kernel.  Machine floats are modelled as `Rat` (the rates in scope are
  exact decimals); `float("nan")` never arises because coercion failures are
  represented by `Option`/`Except` instead.
-/

namespace Compass

/-- Python `str.lower()` (ASCII case mapping, which covers every string the
pipeline compares). -/
def pyLower (s : String) : String := ⟨s.data.map Char.toLower⟩

/-- Python `str.upper()` (ASCII case mapping). -/
def pyUpper (s : String) : String := ⟨s.data.map Char.toUpper⟩

/-- Python `str.strip()` with no argument: remove leading and trailing
whitespace. -/
def pyStrip (s : String) : String :=
  ⟨((s.data.dropWhile Char.isWhitespace).reverse.dropWhile Char.isWhitespace).reverse⟩

/-- Python `len` of a string (code points). -/
def pyLen (s : String) : Nat := s.data.length

/-- Python string slicing `s[:n]` (first `n` code points). -/
def pyTake (s : String) (n : Nat) : String := ⟨s.data.take n⟩

/-- Python string slicing `s[n:]`. -/
def pyDrop (s : String) (n : Nat) : String := ⟨s.data.drop n⟩

/-- List version of `str.startswith`. -/
def startsWithL : List Char → List Char → Bool
  | _, [] => true
  | [], _ :: _ => false
  | a :: as, b :: bs => a == b && startsWithL as bs

/-- Python `s.startswith(p)`. -/
def pyStartsWith (s p : String) : Bool := startsWithL s.data p.data

/-- Helper for substring search: does `needle` occur in `hay` at any position? -/
def containsL : List Char → List Char → Bool
  | [], needle => needle.isEmpty
  | h :: t, needle => startsWithL (h :: t) needle || containsL t needle

/-- Python `needle in hay` on strings. -/
def pyIn (needle hay : String) : Bool := containsL hay.data needle.data

/-- Python `a < b` on strings (lexicographic by code point). -/
def strLt (a b : String) : Bool := decide (a.data < b.data)

/-- Non-strict string comparison. -/
def strLe (a b : String) : Bool := a == b || strLt a b

/-- JSON values as delivered by `httpx.Response.json()`.  Objects keep the
insertion order of their keys, exactly like Python dicts. -/
inductive JVal where
  | null
  | bool (b : Bool)
  | num (q : Rat)
  | str (s : String)
  | arr (elems : List JVal)
  | obj (fields : List (String × JVal))

/-- First binding of a key in an object field list (dict lookup). -/
def jLookup : List (String × JVal) → String → Option JVal
  | [], _ => none
  | (k, v) :: rest, key => if k = key then some v else jLookup rest key

/-- Python `data.get(key)`: `none` when `data` is not a dict or lacks the key. -/
def jGet (data : JVal) (key : String) : Option JVal :=
  match data with
  | .obj fields => jLookup fields key
  | _ => none

/-- Python `v is None` on a JSON value. -/
def isNull : JVal → Bool
  | .null => true
  | _ => false

/-- Python truthiness of a JSON value. -/
def jTruthy : JVal → Bool
  | .null => false
  | .bool b => b
  | .num q => q ≠ 0
  | .str s => s ≠ ""
  | .arr es => !es.isEmpty
  | .obj fs => !fs.isEmpty

/-- Rendering of a rational the way the repr of a Python number prints an
integer; non-integers print as a fraction (the payloads rendered into error
samples only carry integers, so the difference to decimal notation is not
observable in any theorem). -/
def ratRepr (q : Rat) : String :=
  if q.den = 1 then toString q.num else toString q.num ++ "/" ++ toString q.den

/-- Fuel-bounded Python `str()` / `repr()` of a JSON value, used for the
diagnostic samples interpolated into error messages.  The fuel only serves to
make the nested recursion structural; payloads are nowhere near 1000 levels
deep, so `pyStr` below agrees with the unbounded rendering. -/
def pyStrF : Nat → JVal → String
  | 0, _ => ""
  | _ + 1, .null => "None"
  | _ + 1, .bool true => "True"
  | _ + 1, .bool false => "False"
  | _ + 1, .num q => ratRepr q
  | _ + 1, .str s => "\x27" ++ s ++ "\x27"
  | fuel + 1, .arr es =>
      "[" ++ String.intercalate ", " (es.map (pyStrF fuel)) ++ "]"
  | fuel + 1, .obj fs =>
      "\x7b" ++
        String.intercalate ", "
          (fs.map (fun p => "\x27" ++ p.1 ++ "\x27: " ++ pyStrF fuel p.2)) ++
      "\x7d"

/-- Python `str(data)` for a JSON payload. -/
def pyStr (data : JVal) : String := pyStrF 1000 data

/-- Python `str(v)` where `v` may or may not be a string (plain strings print
without quotes, unlike their repr). -/
def pyStrPlain : JVal → String
  | .str s => s
  | v => pyStr v

/-- Python `float(v)`: numbers and booleans convert, everything else raises
(`None` is always filtered before the call sites reach this). -/
def pyFloat : JVal → Except String Rat
  | .num q => .ok q
  | .bool b => .ok (if b then 1 else 0)
  | .str s => .error ("could not convert string to float: \x27" ++ s ++ "\x27")
  | _ => .error "float() argument must be a string or a real number"

/-- Character-level shape test for an ISO `YYYY-MM-DD` date string, the only
date format the providers in scope emit. -/
def isIsoDate (s : String) : Bool :=
  match s.data with
  | [y1, y2, y3, y4, c1, m1, m2, c2, d1, d2] =>
      y1.isDigit && y2.isDigit && y3.isDigit && y4.isDigit &&
      c1 == '-' && m1.isDigit && m2.isDigit && c2 == '-' &&
      d1.isDigit && d2.isDigit
  | _ => false

/-- Model of `pd.to_datetime(col, errors="coerce")` restricted to the ISO date
strings these providers emit: a malformed entry coerces to NaT (`none`). -/
def toDatetimeCoerce (s : String) : Option String :=
  if isIsoDate s then some s else none

/-- Model of `pd.to_numeric(col, errors="coerce")` on a raw JSON cell: null and
non-numeric cells coerce to NaN (`none`).  (Numeric strings, which pandas
would parse, never occur in these payloads.) -/
def toNumericCoerce : JVal → Option Rat
  | .num q => some q
  | .bool b => some (if b then 1 else 0)
  | _ => none

/-- Insertion step of the comparator-based sort modelling
`DataFrame.sort_values`. -/
def insertLe (le : α → α → Bool) (a : α) : List α → List α
  | [] => [a]
  | b :: bs => if le a b then a :: b :: bs else b :: insertLe le a bs

/-- Comparator-based sort modelling `DataFrame.sort_values` (pandas sorts by
the given keys; the algorithm used is irrelevant to every claim, which only
concern the resulting order and multiset of rows). -/
def sortValues (le : α → α → Bool) : List α → List α
  | [] => []
  | a :: as => insertLe le a (sortValues le as)

/-- The Python exceptions that flow through the extraction core. -/
inductive PyErr where
  | httpStatusError (code : Nat) (msg : String)
  | timeoutError
  | runtimeError (msg : String)
  | valueError (msg : String)
  | retryError (last : PyErr)
deriving DecidableEq

/-- Python `str(exc).lower()` rendered from the modelled exception.  For
`tenacity.RetryError` the rendering is the fixed
`RetryError[<Future at 0x... state=finished raised ...>]` template, which
never mentions a base-currency restriction (the inner exception message is not
interpolated). -/
def errStr : PyErr → String
  | .httpStatusError _ m => m
  | .timeoutError => "timed out"
  | .runtimeError m => m
  | .valueError m => m
  | .retryError _ => "retryerror[<future state=finished raised exception>]"

/-- Outcome of one HTTP GET attempt as seen by the fetch primitives: a parsed
JSON body with its status code, or a timeout. -/
inductive HttpOutcome where
  | resp (status : Nat) (body : JVal)
  | timeout

namespace ExchangeRates

/-!
Model of `src/etl/exchangerates.py`.  `_get_json` is the tenacity-wrapped GET
(`@retry(wait=wait_exponential(multiplier=1, min=1, max=8),
stop=stop_after_attempt(5))`); with tenacity's default `retry` predicate it
retries on *every* exception and, once the 5-attempt budget is exhausted,
raises `RetryError` wrapping the last failure.  A logical request is
abstracted by the function `att : Nat → HttpOutcome` giving the outcome of
its n-th attempt (0-based).
-/

/-- Exception raised by one failed attempt inside `_get_json`
(`r.raise_for_status()` raises `httpx.HTTPStatusError` on a 4xx/5xx status,
a timeout raises a timeout exception).  Applied only to failing outcomes. -/
def attemptErr : Compass.HttpOutcome → Compass.PyErr
  | .resp code _ => .httpStatusError code ("client error \x27" ++ toString code ++ "\x27 for url")
  | .timeout => .timeoutError

/-- Did this attempt fail (status ≥ 400 or timeout)? -/
def attemptFails : Compass.HttpOutcome → Bool
  | .resp code _ => 400 ≤ code
  | .timeout => true

/-- Tenacity loop of `_get_json`: attempt `i`, with `fuel` further attempts
allowed; returns the result together with the number of HTTP requests
issued. -/
def getJsonGo (att : Nat → Compass.HttpOutcome) : Nat → Nat → Except Compass.PyErr Compass.JVal × Nat
  | i, fuel =>
    match att i with
    | .resp code body =>
      if 400 ≤ code then
        match fuel with
        | 0 => (.error (.retryError (attemptErr (.resp code body))), i + 1)
        | fuel + 1 => getJsonGo att (i + 1) fuel
      else (.ok body, i + 1)
    | .timeout =>
      match fuel with
      | 0 => (.error (.retryError (attemptErr .timeout)), i + 1)
      | fuel + 1 => getJsonGo att (i + 1) fuel

/-- `_get_json`: result of the tenacity-wrapped GET (5 attempts). -/
def get_json (att : Nat → Compass.HttpOutcome) : Except Compass.PyErr Compass.JVal :=
  (getJsonGo att 0 4).1

/-- Number of HTTP requests `_get_json` issues against one logical request. -/
def get_json_calls (att : Nat → Compass.HttpOutcome) : Nat :=
  (getJsonGo att 0 4).2

/-- One row of the DataFrame produced by `_normalize_timeseries_payload`
after the dtype coercions: `date` is NaT-able, `rate_to_base` is NaN-able. -/
structure RateRow where
  date : Option String
  currency_code : String
  rate_to_base : Option Rat
  base : String
deriving DecidableEq

/-- Non-strict comparison of nullable date columns, NaT last (pandas
`na_position="last"`). -/
def odLe : Option String → Option String → Bool
  | _, none => true
  | none, some _ => false
  | some a, some b => Compass.strLe a b

/-- Strict comparison of nullable date columns, NaT last. -/
def odLt : Option String → Option String → Bool
  | none, _ => false
  | some _, none => true
  | some a, some b => Compass.strLt a b

/-- Sort key of `df.sort_values(["currency_code", "date"])` (NaT sorts
last). -/
def rcLe (r s : RateRow) : Bool :=
  if r.currency_code = s.currency_code then odLe r.date s.date
  else Compass.strLt r.currency_code s.currency_code

/-- Raw rows built by the two nested loops of `_normalize_timeseries_payload`
for a single date key (`for cur, val in (cur_map or \x7b\x7d).items()`). -/
def normRowsOfMap (baseVal : String) (d : String) : List (String × Compass.JVal) → List RateRow
  | [] => []
  | (cur, val) :: rest =>
      ⟨Compass.toDatetimeCoerce d, cur, Compass.toNumericCoerce val, baseVal⟩ ::
        normRowsOfMap baseVal d rest

/-- The field list of a JSON value when iterated like a dict
(`(cur_map or \x7b\x7d).items()`; a null inner map contributes nothing). -/
def dictFields : Compass.JVal → List (String × Compass.JVal)
  | .obj fs => fs
  | _ => []

/-- Raw rows over all date keys of the `rates` mapping. -/
def normRows (baseVal : String) : List (String × Compass.JVal) → List RateRow
  | [] => []
  | (d, curMap) :: rest => normRowsOfMap baseVal d (dictFields curMap) ++ normRows baseVal rest

/-- Value of `data.get("base", base_fallback)` as a string column entry (the
providers in scope return the base as a JSON string when they return it at
all). -/
def baseOf (data : Compass.JVal) (base_fallback : String) : String :=
  match Compass.jGet data "base" with
  | some (.str b) => b
  | some _ => base_fallback
  | none => base_fallback

/-- `_normalize_timeseries_payload(data, base_fallback)`: reject a missing,
non-dict or empty `rates` field with a sampled `RuntimeError`; build one row
per `(date, currency)` pair (null rates are kept and coerce to NaN); reject an
empty row list; coerce dtypes; sort by `(currency_code, date)`. -/
def normalize_timeseries_payload (data : Compass.JVal) (base_fallback : String) :
    Except Compass.PyErr (List RateRow) :=
  match Compass.jGet data "rates" with
  | some (.obj fields) =>
    if fields.isEmpty then
      .error (.runtimeError ("Resposta sem \x27rates\x27 válida. Amostra: " ++
        Compass.pyTake (Compass.pyStr data) 300))
    else
      if (normRows (baseOf data base_fallback) fields).isEmpty then
        .error (.runtimeError "Timeseries retornou vazio após normalização.")
      else
        .ok (Compass.sortValues rcLe (normRows (baseOf data base_fallback) fields))
  | _ =>
      .error (.runtimeError ("Resposta sem \x27rates\x27 válida. Amostra: " ++
        Compass.pyTake (Compass.pyStr data) 300))

/-- The two upstream providers of the multi-provider module. -/
inductive Provider where
  | apilayer
  | frankfurter
deriving DecidableEq

/-- One logical provider request (`_fetch_timeseries_apilayer` /
`_fetch_timeseries_frankfurter` call): the provider plus the arguments that
shape its URL and query parameters. -/
structure PCall where
  provider : Provider
  symbols : List String
  start_date : String
  end_date : String
  base : String
deriving DecidableEq

/-- Environment: the HTTP outcome of the n-th attempt of each logical
request (a deterministic mock of the two provider endpoints). -/
def Env : Type := PCall → Nat → Compass.HttpOutcome

/-- Body of both `_fetch_timeseries_apilayer` and
`_fetch_timeseries_frankfurter`: one `_get_json` followed by
`_normalize_timeseries_payload` with `base_fallback` equal to the requested
base. -/
def fetchProvider (env : Env) (c : PCall) : Except Compass.PyErr (List RateRow) :=
  match get_json (env c) with
  | .error e => .error e
  | .ok data => normalize_timeseries_payload data c.base

/-- The `_settings()` triple after its `strip()`/`lower()` post-processing
(`EXCHANGE_PROVIDER`, `EXCHANGERATE_API_KEY`; the timeout has no observable
effect in the model). -/
structure Settings where
  provider : String
  api_key : String
deriving DecidableEq

/-- Test `provider in \x7b"apilayer", "exchangeratesapi", "exchangerates_data"\x7d`. -/
def providerIsApilayer (st : Settings) : Bool :=
  st.provider == "apilayer" || st.provider == "exchangeratesapi" ||
    st.provider == "exchangerates_data"

/-- Test `not api_key or api_key.lower() in \x7b"sua_chave", "your_api_key_here"\x7d`. -/
def keyMissing (st : Settings) : Bool :=
  st.api_key == "" || Compass.pyLower st.api_key == "sua_chave" ||
    Compass.pyLower st.api_key == "your_api_key_here"

/-- Symbol sanitation of the multi-provider `fetch_timeseries`:
`[s.strip().upper() for s in symbols if s and str(s).strip()]`. -/
def sanitize (symbols : List String) : List String :=
  (symbols.filter (fun s => s ≠ "" && Compass.pyStrip s ≠ "")).map
    (fun s => Compass.pyUpper (Compass.pyStrip s))

/-- Base-restriction test of lines 106 and 116:
`"base" in msg and ("restrict" in msg or "105" in msg)` over the lowercased
exception message. -/
def msgMatches (m : String) : Bool :=
  let l := Compass.pyLower m
  Compass.pyIn "base" l && (Compass.pyIn "restrict" l || Compass.pyIn "105" l)

/-- The APILayer request the orchestrator builds for a given base. -/
def apiReq (symbols : List String) (startD endD b : String) : PCall :=
  ⟨.apilayer, sanitize symbols, startD, endD, b⟩

/-- The Frankfurter request the orchestrator builds for a given base. -/
def frReq (symbols : List String) (startD endD b : String) : PCall :=
  ⟨.frankfurter, sanitize symbols, startD, endD, b⟩

/-- The multi-provider `fetch_timeseries(symbols, start_date, end_date, base)`
of `exchangerates.py`, returning its result together with the trace of
logical provider requests issued (in order).  Dates are already their ISO
renderings (`_as_iso` is the identity on them). -/
def fetch_timeseries (env : Env) (st : Settings) (symbols : List String)
    (startD endD : String) (base : String) :
    Except Compass.PyErr (List RateRow) × List PCall :=
  if sanitize symbols = [] then
    (.error (.valueError "Informe ao menos um símbolo em `symbols`."), [])
  else if providerIsApilayer st then
    if keyMissing st then
      (fetchProvider env (frReq symbols startD endD "EUR"), [frReq symbols startD endD "EUR"])
    else
      match fetchProvider env (apiReq symbols startD endD base) with
      | .ok df => (.ok df, [apiReq symbols startD endD base])
      | .error (.retryError _) =>
          -- except RetryError: direct fallback to Frankfurter with base EUR
          (fetchProvider env (frReq symbols startD endD "EUR"),
           [apiReq symbols startD endD base, frReq symbols startD endD "EUR"])
      | .error (.httpStatusError code m) =>
          -- except httpx.HTTPStatusError (unreachable through _get_json,
          -- which wraps every attempt failure in RetryError; modelled as
          -- written in the source)
          if code = 401 ∨ code = 403 then
            (fetchProvider env (frReq symbols startD endD "EUR"),
             [apiReq symbols startD endD base, frReq symbols startD endD "EUR"])
          else if msgMatches m then
            match fetchProvider env (apiReq symbols startD endD "EUR") with
            | .ok df =>
                (.ok df, [apiReq symbols startD endD base, apiReq symbols startD endD "EUR"])
            | .error _ =>
                (fetchProvider env (frReq symbols startD endD "EUR"),
                 [apiReq symbols startD endD base, apiReq symbols startD endD "EUR",
                  frReq symbols startD endD "EUR"])
          else (.error (.httpStatusError code m), [apiReq symbols startD endD base])
      | .error (.runtimeError m) =>
          if msgMatches m then
            match fetchProvider env (apiReq symbols startD endD "EUR") with
            | .ok df =>
                (.ok df, [apiReq symbols startD endD base, apiReq symbols startD endD "EUR"])
            | .error _ =>
                (fetchProvider env (frReq symbols startD endD "EUR"),
                 [apiReq symbols startD endD base, apiReq symbols startD endD "EUR",
                  frReq symbols startD endD "EUR"])
          else
            -- unclassified RuntimeError: fallback with the *original* base
            (fetchProvider env (frReq symbols startD endD base),
             [apiReq symbols startD endD base, frReq symbols startD endD base])
      | .error e => (.error e, [apiReq symbols startD endD base])
  else
    (fetchProvider env (frReq symbols startD endD base), [frReq symbols startD endD base])

end ExchangeRates

namespace TransformerRates

/-- Sort key of `df.sort_values(["date", "currency_code"])` in
`transform_rates` (NaT sorts last). -/
def tdLe (r s : ExchangeRates.RateRow) : Bool :=
  if r.date = s.date then Compass.strLe r.currency_code s.currency_code
  else ExchangeRates.odLt r.date s.date

/-- `transform_rates(df)` of `transformer_rates.py` (the DataFrame part; the
quality dict is derived reporting with no effect on the returned table):
reject an empty input, re-coerce dtypes, drop rows with a null critical field,
and sort by `(date, currency_code)`. -/
def transform_rates (df : List ExchangeRates.RateRow) :
    Except Compass.PyErr (List ExchangeRates.RateRow) :=
  if df.isEmpty then
    .error (.valueError "Transformer de rates recebeu DataFrame vazio.")
  else
    let coerced := df.map (fun r =>
      { r with date := r.date.bind Compass.toDatetimeCoerce })
    let kept := coerced.filter (fun r => r.date.isSome && r.rate_to_base.isSome)
    .ok (Compass.sortValues tdLe kept)

end TransformerRates

/-- The field list of a JSON value when iterated like a Python dict
(`(mapping or \x7b\x7d).items()`; a null map contributes nothing). -/
def dictFields : JVal → List (String × JVal)
  | .obj fs => fs
  | _ => []

/-- Message of the `httpx.HTTPStatusError` raised by `raise_for_status()`. -/
def statusMsg (code : Nat) : String :=
  "client error \x27" ++ toString code ++ "\x27 for url"

/-- Python `data.get("success") is False`. -/
def successIsFalse (data : JVal) : Bool :=
  match jGet data "success" with
  | some (.bool false) => true
  | _ => false

namespace Extractors

/-!
Model of `src/etl/extractors.py` (the batched extractor against
`api.exchangerate.host/timeseries` with a hand-written retry loop).  The HTTP
layer is abstracted by `env : Nat → Nat → HttpOutcome`, giving the outcome of
attempt `a` (1-based) of batch `i` (0-based).  The module-level bug on line
107 (`api_key` is assigned the literal string
`api_key or os.getenv("EXCHANGERATE_API_KEY") or None` instead of that
expression's value) only changes the `access_key` query parameter sent
upstream, which the environment abstraction absorbs.
-/

/-- One row of the returned table. -/
structure XRow where
  date : String
  currency_code : String
  rate_to_usd : Rat
deriving DecidableEq

/-- A returned DataFrame: its column list and its rows. -/
structure XFrame where
  cols : List String
  rows : List XRow
deriving DecidableEq

/-- The canonical output columns of both batched extractors. -/
def xCols : List String := ["date", "currency_code", "rate_to_usd"]

/-- Fuel-driven body of `_chunk` (the fuel, instantiated with the list length,
only makes the recursion structural: `n ≥ 1` steps consume at least one
element each). -/
def chunkGo (n : Nat) : Nat → List α → List (List α)
  | 0, _ => []
  | _, [] => []
  | fuel + 1, l => l.take n :: chunkGo n fuel (l.drop n)

/-- `_chunk(lst, n)`: consecutive slices `lst[i:i+n]`. -/
def chunk (l : List α) (n : Nat) : List (List α) := chunkGo n l.length l

/-- Symbol sanitation:
`sorted(set([s.upper() for s in symbols if isinstance(s, str) and len(s) == 3]))`. -/
def xsanitize (symbols : List String) : List String :=
  Compass.sortValues Compass.strLe
    (((symbols.filter (fun s => Compass.pyLen s = 3)).map Compass.pyUpper).eraseDups)

/-- `_need_api_key_hint(err_obj)`: the first truthy of `type` / `message` /
`""`, lowercased, mentions an API key. -/
def need_api_key_hint (err_obj : Compass.JVal) : Bool :=
  let pick (k : String) : Option Compass.JVal :=
    match Compass.jGet err_obj k with
    | some v => if Compass.jTruthy v then some v else none
    | none => none
  let msgv : Compass.JVal :=
    match pick "type" with
    | some v => v
    | none =>
      match pick "message" with
      | some v => v
      | none => .str ""
  let m := Compass.pyLower (Compass.pyStrPlain msgv)
  Compass.pyIn "access_key" m || Compass.pyIn "api key" m || Compass.pyIn "apikey" m

/-- Rows of one date key: `for code, val in (mapping or \x7b\x7d).items():
if val is not None: ... float(val)` (the currency code is *not* uppercased in
this variant). -/
def rowsOfMap (d : String) : List (String × Compass.JVal) → Except Compass.PyErr (List XRow)
  | [] => .ok []
  | (code, val) :: rest =>
    if Compass.isNull val then rowsOfMap d rest
    else
      match Compass.pyFloat val with
      | .error m => .error (.valueError m)
      | .ok q =>
        match rowsOfMap d rest with
        | .error e => .error e
        | .ok tl => .ok (⟨d, code, q⟩ :: tl)

/-- Rows over all date keys of the `rates` mapping, in response order. -/
def rowsOfRates : List (String × Compass.JVal) → Except Compass.PyErr (List XRow)
  | [] => .ok []
  | (d, mapping) :: rest =>
    match rowsOfMap d (Compass.dictFields mapping) with
    | .error e => .error e
    | .ok rs =>
      match rowsOfRates rest with
      | .error e => .error e
      | .ok tl => .ok (rs ++ tl)

/-- Processing of a successfully fetched JSON body inside the batch loop:
`success: false` short-circuit (with the API-key hint), the `rates` shape
check with its 300-character sample, then row building with null rates
dropped. -/
def handleBody (data : Compass.JVal) : Except Compass.PyErr (List XRow) :=
  if Compass.successIsFalse data then
    let err : Compass.JVal :=
      match Compass.jGet data "error" with
      | some v => if Compass.jTruthy v then v else .obj []
      | none => .obj []
    if need_api_key_hint err then
      .error (.runtimeError
        "exchangerate.host exigiu chave de API. Defina EXCHANGERATE_API_KEY no ambiente ou passe api_key=...")
    else
      .error (.runtimeError ("exchangerate.host retornou erro: " ++ Compass.pyStr err))
  else
    match Compass.jGet data "rates" with
    | some (.obj fs) =>
      if fs.isEmpty then
        .error (.runtimeError ("Resposta sem \x27rates\x27 válida. Amostra: " ++
          Compass.pyTake (Compass.pyStr data) 300))
      else rowsOfRates fs
    | _ =>
      .error (.runtimeError ("Resposta sem \x27rates\x27 válida. Amostra: " ++
        Compass.pyTake (Compass.pyStr data) 300))

/-- The transient statuses retried by the loop: `(429, 500, 502, 503, 504)`. -/
def transientStatus (c : Nat) : Bool :=
  c == 429 || c == 500 || c == 502 || c == 503 || c == 504

/-- The per-batch `while True` retry loop (`attempt` is 1-based; the fuel,
instantiated with `retries + 1`, only makes the recursion structural — the
loop re-enters at most `retries` times).  Returns the batch result and the
number of HTTP requests issued. -/
def batchGo (att : Nat → Compass.HttpOutcome) (retries : Nat) :
    Nat → Nat → Except Compass.PyErr (List XRow) × Nat
  | attempt, 0 => (.error .timeoutError, attempt)
  | attempt, fuel + 1 =>
    match att attempt with
    | .timeout =>
      if attempt ≤ retries then batchGo att retries (attempt + 1) fuel
      else (.error .timeoutError, attempt)
    | .resp code body =>
      if transientStatus code then
        if attempt ≤ retries then batchGo att retries (attempt + 1) fuel
        else (.error (.httpStatusError code (Compass.statusMsg code)), attempt)
      else if 400 ≤ code then
        (.error (.httpStatusError code (Compass.statusMsg code)), attempt)
      else (handleBody body, attempt)

/-- One batch: the retry loop started at attempt 1. -/
def batch (att : Nat → Compass.HttpOutcome) (retries : Nat) :
    Except Compass.PyErr (List XRow) × Nat :=
  batchGo att retries 1 (retries + 1)

/-- The `for batch in _chunk(symbols, max_batch)` loop: frames accumulate in
batch order; a failing batch aborts the whole call.  Also counts the HTTP
requests issued. -/
def fetchGo (env : Nat → Nat → Compass.HttpOutcome) (retries : Nat) :
    Nat → List (List String) → Except Compass.PyErr (List (List XRow)) × Nat
  | _, [] => (.ok [], 0)
  | i, _ :: rest =>
    match batch (env i) retries with
    | (.error e, n) => (.error e, n)
    | (.ok rows, n) =>
      match fetchGo env retries (i + 1) rest with
      | (.error e, m) => (.error e, n + m)
      | (.ok rss, m) => (.ok (rows :: rss), n + m)

/-- `fetch_timeseries(symbols, start_d, end_d, ...)` of `extractors.py`.
Dates are day numbers (Python `date` objects compare and subtract by days).
Returns the frame (or error) and the total number of HTTP requests issued. -/
def fetch_timeseries (env : Nat → Nat → Compass.HttpOutcome) (symbols : List String)
    (start_d end_d : Nat) (max_batch retries : Nat) :
    Except Compass.PyErr XFrame × Nat :=
  if (xsanitize symbols).isEmpty || decide (start_d > end_d) then (.ok ⟨xCols, []⟩, 0)
  else if end_d - start_d > 365 then
    (.error (.valueError "Janela máxima para timeseries é 365 dias."), 0)
  else
    match fetchGo env retries 0 (chunk (xsanitize symbols) max_batch) with
    | (.error e, n) => (.error e, n)
    | (.ok frames, n) => (.ok ⟨xCols, frames.flatten⟩, n)

end Extractors

namespace Extractor

/-!
Model of the response handling of `src/etl/extractor.py` (the `/timeframe`
variant): a `success: false` short-circuit, then the currencylayer-like
`quotes` shape with source-prefixed pair codes, then the classic `rates`
shape (this variant uppercases the currency code), and otherwise the sampled
shape error.  Note that an *empty* `quotes` or `rates` dict passes the
`isinstance(..., dict)` test and simply yields zero rows.
-/

/-- `source = (data.get("source") or "USD").upper()`. -/
def sourceOf (data : Compass.JVal) : String :=
  match Compass.jGet data "source" with
  | some (.str s) => if s = "" then "USD" else Compass.pyUpper s
  | _ => "USD"

/-- Rows of one date key of the `quotes` mapping: keep a pair key only when
its uppercase form starts with the source code and its value is non-null;
strip the source code off the key to recover the bare currency code. -/
def quotesRowsOfMap (source d : String) :
    List (String × Compass.JVal) → Except Compass.PyErr (List Extractors.XRow)
  | [] => .ok []
  | (pair, val) :: rest =>
    if Compass.pyStartsWith (Compass.pyUpper pair) source && !Compass.isNull val then
      match Compass.pyFloat val with
      | .error m => .error (.valueError m)
      | .ok q =>
        match quotesRowsOfMap source d rest with
        | .error e => .error e
        | .ok tl =>
          .ok (⟨d, Compass.pyUpper (Compass.pyDrop pair (Compass.pyLen source)), q⟩ :: tl)
    else quotesRowsOfMap source d rest

/-- Rows over all date keys of the `quotes` mapping. -/
def quotesRows (source : String) :
    List (String × Compass.JVal) → Except Compass.PyErr (List Extractors.XRow)
  | [] => .ok []
  | (d, mapping) :: rest =>
    match quotesRowsOfMap source d (Compass.dictFields mapping) with
    | .error e => .error e
    | .ok rs =>
      match quotesRows source rest with
      | .error e => .error e
      | .ok tl => .ok (rs ++ tl)

/-- Rows of one date key of the classic `rates` mapping (this variant
uppercases the code). -/
def ratesRowsOfMapU (d : String) :
    List (String × Compass.JVal) → Except Compass.PyErr (List Extractors.XRow)
  | [] => .ok []
  | (code, val) :: rest =>
    if Compass.isNull val then ratesRowsOfMapU d rest
    else
      match Compass.pyFloat val with
      | .error m => .error (.valueError m)
      | .ok q =>
        match ratesRowsOfMapU d rest with
        | .error e => .error e
        | .ok tl => .ok (⟨d, Compass.pyUpper code, q⟩ :: tl)

/-- Rows over all date keys of the classic `rates` mapping. -/
def ratesRowsU : List (String × Compass.JVal) → Except Compass.PyErr (List Extractors.XRow)
  | [] => .ok []
  | (d, mapping) :: rest =>
    match ratesRowsOfMapU d (Compass.dictFields mapping) with
    | .error e => .error e
    | .ok rs =>
      match ratesRowsU rest with
      | .error e => .error e
      | .ok tl => .ok (rs ++ tl)

/-- Shape dispatch of `extractor.py` lines 112-136 on a fetched body. -/
def handleBody (data : Compass.JVal) : Except Compass.PyErr (List Extractors.XRow) :=
  if Compass.successIsFalse data then
    .error (.runtimeError ("exchangerate.host retornou erro: " ++
      Compass.pyStr ((Compass.jGet data "error").getD .null)))
  else
    match Compass.jGet data "quotes" with
    | some (.obj qs) => quotesRows (sourceOf data) qs
    | _ =>
      match Compass.jGet data "rates" with
      | some (.obj fs) => ratesRowsU fs
      | _ =>
        .error (.runtimeError ("Resposta sem \x27quotes\x27 ou \x27rates\x27 válida. Amostra: " ++
          Compass.pyTake (Compass.pyStr data) 300))

end Extractor

/-- Day number of a proleptic-Gregorian civil date (valid for all CE dates,
`y ≥ 1`); differences of day numbers equal Python `date` subtraction in
days. -/
def daysFromCivil (y m d : Nat) : Nat :=
  let y2 := if m ≤ 2 then y - 1 else y
  let era := y2 / 400
  let yoe := y2 - era * 400
  let mp := if m > 2 then m - 3 else m + 9
  let doy := (153 * mp + 2) / 5 + d - 1
  let doe := yoe * 365 + yoe / 4 - yoe / 100 + doy
  era * 146097 + doe

/-- Zero-padded two-digit rendering. -/
def pad2 (n : Nat) : String := if n < 10 then "0" ++ toString n else toString n

/-- ISO rendering `YYYY-MM-DD` of a civil date (four-digit years). -/
def isoOfCivil (y m d : Nat) : String :=
  toString y ++ "-" ++ pad2 m ++ "-" ++ pad2 d

/-! Order and sorting facts used by the claims about output ordering. -/

theorem strDataEq {a b : String} (h : a.data = b.data) : a = b :=
  congrArg String.mk h

theorem strLt_trans {a b c : String} (h1 : strLt a b = true) (h2 : strLt b c = true) :
    strLt a c = true := by
  simp only [strLt, decide_eq_true_iff] at h1 h2 ⊢
  exact lt_trans h1 h2

theorem strLt_asymm {a b : String} (h : strLt a b = true) : a ≠ b := by
  rintro rfl
  simp only [strLt, decide_eq_true_iff] at h
  exact lt_irrefl _ h

theorem strLt_or {a b : String} (h : a ≠ b) : strLt a b = true ∨ strLt b a = true := by
  have hd : a.data ≠ b.data := fun hdd => h (strDataEq hdd)
  rcases lt_trichotomy a.data b.data with hlt | heq | hgt
  · exact Or.inl (by simpa [strLt] using hlt)
  · exact absurd heq hd
  · exact Or.inr (by simpa [strLt] using hgt)

theorem strLe_refl (a : String) : strLe a a = true := by
  simp [strLe]

theorem strLe_total (a b : String) : strLe a b = true ∨ strLe b a = true := by
  by_cases h : a = b
  · subst h; exact Or.inl (strLe_refl a)
  · rcases strLt_or h with h1 | h1
    · exact Or.inl (by simp [strLe, h1])
    · exact Or.inr (by simp [strLe, h1])

theorem strLe_trans {a b c : String} (h1 : strLe a b = true) (h2 : strLe b c = true) :
    strLe a c = true := by
  simp only [strLe, Bool.or_eq_true, beq_iff_eq] at h1 h2 ⊢
  rcases h1 with rfl | h1
  · exact h2
  · rcases h2 with rfl | h2
    · exact Or.inr h1
    · exact Or.inr (strLt_trans h1 h2)

theorem mem_insertLe {le : α → α → Bool} {a b : α} {l : List α} :
    b ∈ insertLe le a l ↔ b = a ∨ b ∈ l := by
  induction l with
  | nil => simp [insertLe]
  | cons c cs ih =>
    by_cases h : le a c = true
    · simp [insertLe, h]
    · simp only [insertLe, h, Bool.false_eq_true, if_false, List.mem_cons, ih]
      tauto

theorem mem_sortValues {le : α → α → Bool} {a : α} {l : List α} :
    a ∈ sortValues le l ↔ a ∈ l := by
  induction l with
  | nil => simp [sortValues]
  | cons b bs ih => simp [sortValues, mem_insertLe, ih]

theorem pairwise_insertLe {le : α → α → Bool}
    (total : ∀ x y, le x y = true ∨ le y x = true)
    (trans : ∀ x y z, le x y = true → le y z = true → le x z = true)
    {a : α} {l : List α} (h : l.Pairwise (fun x y => le x y = true)) :
    (insertLe le a l).Pairwise (fun x y => le x y = true) := by
  induction l with
  | nil => simp [insertLe]
  | cons b bs ih =>
    rw [List.pairwise_cons] at h
    obtain ⟨hb, hbs⟩ := h
    by_cases hab : le a b = true
    · simp only [insertLe, hab, if_true]
      refine List.Pairwise.cons ?_ (List.Pairwise.cons hb hbs)
      intro x hx
      rcases List.mem_cons.mp hx with rfl | hx
      · exact hab
      · exact trans a b x hab (hb x hx)
    · have hba : le b a = true := (total a b).resolve_left hab
      simp only [insertLe, hab, Bool.false_eq_true, if_false]
      refine List.Pairwise.cons ?_ (ih hbs)
      intro x hx
      rcases mem_insertLe.mp hx with rfl | hx
      · exact hba
      · exact hb x hx

theorem pairwise_sortValues {le : α → α → Bool}
    (total : ∀ x y, le x y = true ∨ le y x = true)
    (trans : ∀ x y z, le x y = true → le y z = true → le x z = true)
    (l : List α) :
    (sortValues le l).Pairwise (fun x y => le x y = true) := by
  induction l with
  | nil => simp [sortValues]
  | cons b bs ih => exact pairwise_insertLe total trans ih

namespace ExchangeRates

theorem odLe_total (a b : Option String) : odLe a b = true ∨ odLe b a = true := by
  match a, b with
  | none, none => left; rfl
  | none, some _ => right; rfl
  | some _, none => left; rfl
  | some x, some y => exact Compass.strLe_total x y

theorem odLe_trans {a b c : Option String} (h1 : odLe a b = true) (h2 : odLe b c = true) :
    odLe a c = true := by
  match a, b, c with
  | none, _, none => rfl
  | some _, _, none => rfl
  | none, none, some _ => exact absurd h2 (by simp [odLe])
  | none, some _, some _ => exact absurd h1 (by simp [odLe])
  | some _, none, some _ => exact absurd h2 (by simp [odLe])
  | some x, some y, some z => exact Compass.strLe_trans h1 h2

theorem odLt_or {a b : Option String} (h : a ≠ b) : odLt a b = true ∨ odLt b a = true := by
  match a, b with
  | none, none => exact absurd rfl h
  | none, some _ => right; rfl
  | some _, none => left; rfl
  | some x, some y =>
    have hxy : x ≠ y := fun hh => h (by rw [hh])
    exact Compass.strLt_or hxy

theorem odLt_ne {a b : Option String} (h : odLt a b = true) : a ≠ b := by
  match a, b with
  | none, _ => exact absurd h (by simp [odLt])
  | some _, none => simp
  | some x, some y =>
    have := Compass.strLt_asymm h
    simpa using this

theorem odLt_trans {a b c : Option String} (h1 : odLt a b = true) (h2 : odLt b c = true) :
    odLt a c = true := by
  match a, b, c with
  | none, _, _ => exact absurd h1 (by simp [odLt])
  | some _, none, _ => exact absurd h2 (by simp [odLt])
  | some _, some _, none => rfl
  | some x, some y, some z => exact Compass.strLt_trans h1 h2

theorem rcLe_total (r s : RateRow) : rcLe r s = true ∨ rcLe s r = true := by
  unfold rcLe
  by_cases h : r.currency_code = s.currency_code
  · simp only [h, if_true, if_pos rfl]
    exact odLe_total r.date s.date
  · have h2 : ¬s.currency_code = r.currency_code := fun hh => h hh.symm
    simp only [h, h2, if_false]
    exact Compass.strLt_or h

theorem rcLe_trans (r s t : RateRow) (h1 : rcLe r s = true) (h2 : rcLe s t = true) :
    rcLe r t = true := by
  obtain ⟨d1, c1, v1, b1⟩ := r
  obtain ⟨d2, c2, v2, b2⟩ := s
  obtain ⟨d3, c3, v3, b3⟩ := t
  unfold rcLe at h1 h2 ⊢
  simp only at h1 h2 ⊢
  by_cases e1 : c1 = c2
  · subst e1
    by_cases e2 : c1 = c3
    · subst e2
      rw [if_pos rfl] at h1 h2 ⊢
      exact odLe_trans h1 h2
    · rw [if_pos rfl] at h1
      rw [if_neg e2] at h2 ⊢
      exact h2
  · by_cases e2 : c2 = c3
    · subst e2
      rw [if_neg e1] at h1 ⊢
      exact h1
    · rw [if_neg e1] at h1
      rw [if_neg e2] at h2
      have h3 := Compass.strLt_trans h1 h2
      rw [if_neg (Compass.strLt_asymm h3)]
      exact h3

end ExchangeRates

namespace TransformerRates

theorem tdLe_total (r s : ExchangeRates.RateRow) : tdLe r s = true ∨ tdLe s r = true := by
  unfold tdLe
  by_cases h : r.date = s.date
  · simp only [h, if_true, if_pos rfl]
    exact Compass.strLe_total _ _
  · have h2 : ¬s.date = r.date := fun hh => h hh.symm
    simp only [h, h2, if_false]
    exact ExchangeRates.odLt_or h

theorem tdLe_trans (r s t : ExchangeRates.RateRow) (h1 : tdLe r s = true)
    (h2 : tdLe s t = true) : tdLe r t = true := by
  obtain ⟨d1, c1, v1, b1⟩ := r
  obtain ⟨d2, c2, v2, b2⟩ := s
  obtain ⟨d3, c3, v3, b3⟩ := t
  unfold tdLe at h1 h2 ⊢
  simp only at h1 h2 ⊢
  by_cases e1 : d1 = d2
  · subst e1
    by_cases e2 : d1 = d3
    · subst e2
      rw [if_pos rfl] at h1 h2 ⊢
      exact Compass.strLe_trans h1 h2
    · rw [if_pos rfl] at h1
      rw [if_neg e2] at h2 ⊢
      exact h2
  · by_cases e2 : d2 = d3
    · subst e2
      rw [if_neg e1] at h1 ⊢
      exact h1
    · rw [if_neg e1] at h1
      rw [if_neg e2] at h2
      have h3 := ExchangeRates.odLt_trans h1 h2
      rw [if_neg (ExchangeRates.odLt_ne h3)]
      exact h3

end TransformerRates

namespace ExchangeRates

theorem getJsonGo_allFail (att : Nat → Compass.HttpOutcome)
    (hf : ∀ i, attemptFails (att i) = true) :
    ∀ (fuel i : Nat), getJsonGo att i fuel =
      (.error (.retryError (attemptErr (att (i + fuel)))), i + fuel + 1) := by
  intro fuel
  induction fuel with
  | zero =>
    intro i
    have hfi := hf i
    cases h : att i with
    | timeout => simp [getJsonGo, h]
    | resp code body =>
      rw [h] at hfi
      have hc : 400 ≤ code := by simpa [attemptFails] using hfi
      simp [getJsonGo, h, hc]
  | succ f ih =>
    intro i
    have hfi := hf i
    have harith : i + 1 + f = i + (f + 1) := by omega
    cases h : att i with
    | timeout =>
      simp only [getJsonGo, h]
      rw [ih (i + 1), harith]
    | resp code body =>
      rw [h] at hfi
      have hc : 400 ≤ code := by simpa [attemptFails] using hfi
      simp only [getJsonGo, h, if_pos hc]
      rw [ih (i + 1), harith]

theorem get_json_allFail (att : Nat → Compass.HttpOutcome)
    (hf : ∀ i, attemptFails (att i) = true) :
    get_json att = .error (.retryError (attemptErr (att 4))) ∧ get_json_calls att = 5 := by
  unfold get_json get_json_calls
  rw [getJsonGo_allFail att hf 4 0]
  exact ⟨rfl, rfl⟩

theorem getJsonGo_error_retry (att : Nat → Compass.HttpOutcome) :
    ∀ (fuel i : Nat) (e : Compass.PyErr), (getJsonGo att i fuel).1 = .error e →
      ∃ e2, e = .retryError e2 := by
  intro fuel
  induction fuel with
  | zero =>
    intro i e h
    rw [getJsonGo] at h
    split at h
    · split at h
      · exact ⟨_, (Except.error.inj h).symm⟩
      · exact Except.noConfusion h
    · exact ⟨_, (Except.error.inj h).symm⟩
  | succ f ih =>
    intro i e h
    rw [getJsonGo] at h
    split at h
    · split at h
      · exact ih (i + 1) e h
      · exact Except.noConfusion h
    · exact ih (i + 1) e h

theorem normalize_error_runtime {data : Compass.JVal} {bf : String} {e : Compass.PyErr}
    (h : normalize_timeseries_payload data bf = .error e) : ∃ m, e = .runtimeError m := by
  unfold normalize_timeseries_payload at h
  split at h
  · split at h
    · exact ⟨_, (Except.error.inj h).symm⟩
    · split at h
      · exact ⟨_, (Except.error.inj h).symm⟩
      · cases h
  · exact ⟨_, (Except.error.inj h).symm⟩

theorem fetchProvider_error_shape {env : Env} {c : PCall} {e : Compass.PyErr}
    (h : fetchProvider env c = .error e) :
    (∃ e2, e = .retryError e2) ∨ ∃ m, e = .runtimeError m := by
  unfold fetchProvider at h
  cases hg : get_json (env c) with
  | error e1 =>
    rw [hg] at h
    have he : e1 = e := Except.error.inj h
    subst he
    exact Or.inl (getJsonGo_error_retry (env c) 4 0 e1 hg)
  | ok data =>
    rw [hg] at h
    exact Or.inr (normalize_error_runtime h)

theorem normRowsOfMap_base {bv d : String} {m : List (String × Compass.JVal)}
    {r : RateRow} (h : r ∈ normRowsOfMap bv d m) : r.base = bv := by
  induction m with
  | nil => cases h
  | cons p rest ih =>
    rcases List.mem_cons.mp h with rfl | h2
    · rfl
    · exact ih h2

theorem normRows_base {bv : String} {fs : List (String × Compass.JVal)}
    {r : RateRow} (h : r ∈ normRows bv fs) : r.base = bv := by
  induction fs with
  | nil => cases h
  | cons p rest ih =>
    rcases List.mem_append.mp h with h2 | h2
    · exact normRowsOfMap_base h2
    · exact ih h2

theorem normalize_ok_base {data : Compass.JVal} {bf : String} {rows : List RateRow}
    (h : normalize_timeseries_payload data bf = .ok rows) :
    ∀ r ∈ rows, r.base = baseOf data bf := by
  unfold normalize_timeseries_payload at h
  split at h
  · split at h
    · cases h
    · split at h
      · cases h
      · have hr := Except.ok.inj h
        intro r hmem
        rw [← hr] at hmem
        exact normRows_base (Compass.mem_sortValues.mp hmem)
  · cases h

theorem normalize_ok_sorted {data : Compass.JVal} {bf : String} {rows : List RateRow}
    (h : normalize_timeseries_payload data bf = .ok rows) :
    rows.Pairwise (fun a b => rcLe a b = true) := by
  unfold normalize_timeseries_payload at h
  split at h
  · split at h
    · cases h
    · split at h
      · cases h
      · have hr := Except.ok.inj h
        rw [← hr]
        exact Compass.pairwise_sortValues rcLe_total rcLe_trans _
  · cases h

theorem msgMatches_retryError (e : Compass.PyErr) :
    msgMatches (errStr (.retryError e)) = false := by
  rw [show errStr (.retryError e) = "retryerror[<future state=finished raised exception>]"
    from rfl]
  decide

end ExchangeRates

namespace TransformerRates

theorem transform_rates_ok_sorted {df out : List ExchangeRates.RateRow}
    (h : transform_rates df = .ok out) :
    out.Pairwise (fun a b => tdLe a b = true) := by
  unfold transform_rates at h
  split at h
  · cases h
  · have hr := Except.ok.inj h
    rw [← hr]
    exact Compass.pairwise_sortValues tdLe_total tdLe_trans _

end TransformerRates

namespace Extractors

theorem chunkGo_flatten {α : Type} (n : Nat) (hn : 0 < n) :
    ∀ (fuel : Nat) (l : List α), l.length ≤ fuel → (chunkGo n fuel l).flatten = l := by
  intro fuel
  induction fuel with
  | zero =>
    intro l hl
    have : l = [] := List.eq_nil_of_length_eq_zero (Nat.le_zero.mp hl)
    subst this
    rfl
  | succ f ih =>
    intro l hl
    cases l with
    | nil => rfl
    | cons a as =>
      simp only [chunkGo, List.flatten_cons]
      rw [ih ((a :: as).drop n)
        (by rw [List.length_drop]; simp only [List.length_cons] at hl ⊢; omega)]
      exact List.take_append_drop n (a :: as)

theorem chunk_flatten {α : Type} (l : List α) (n : Nat) (hn : 0 < n) :
    (chunk l n).flatten = l :=
  chunkGo_flatten n hn l.length l (le_refl _)

theorem chunkGo_size {α : Type} (n : Nat) :
    ∀ (fuel : Nat) (l : List α) (c : List α), c ∈ chunkGo n fuel l → c.length ≤ n := by
  intro fuel
  induction fuel with
  | zero => intro l c h; exact absurd h (by simp [chunkGo])
  | succ f ih =>
    intro l c h
    cases l with
    | nil => exact absurd h (by simp [chunkGo])
    | cons a as =>
      simp only [chunkGo] at h
      rcases List.mem_cons.mp h with rfl | h2
      · simp [List.length_take]
      · exact ih _ c h2

theorem chunk_size {α : Type} (l : List α) (n : Nat) (c : List α) (h : c ∈ chunk l n) :
    c.length ≤ n :=
  chunkGo_size n l.length l c h

theorem batch_first_ok (att : Nat → Compass.HttpOutcome) (retries code : Nat)
    (body : Compass.JVal) (hatt : att 1 = .resp code body)
    (hc : transientStatus code = false) (h4 : ¬400 ≤ code) :
    batch att retries = (handleBody body, 1) := by
  simp [batch, batchGo, hatt, hc, h4]

theorem batch_first_nonTransientError (att : Nat → Compass.HttpOutcome) (retries code : Nat)
    (body : Compass.JVal) (hatt : att 1 = .resp code body)
    (hc : transientStatus code = false) (h4 : 400 ≤ code) :
    batch att retries = (.error (.httpStatusError code (Compass.statusMsg code)), 1) := by
  simp [batch, batchGo, hatt, hc, h4]

theorem batchGo_allTimeout (retries : Nat) :
    ∀ (fuel attempt : Nat), attempt + fuel = retries + 2 → 1 ≤ attempt →
      attempt ≤ retries + 1 →
      batchGo (fun _ => .timeout) retries attempt fuel = (.error .timeoutError, retries + 1) := by
  intro fuel
  induction fuel with
  | zero => intro attempt h1 h2 h3; omega
  | succ f ih =>
    intro attempt h1 h2 h3
    by_cases hle : attempt ≤ retries
    · simp only [batchGo, if_pos hle]
      exact ih (attempt + 1) (by omega) (by omega) (by omega)
    · have : attempt = retries + 1 := by omega
      subst this
      simp [batchGo, hle]

theorem batch_allTimeout (retries : Nat) :
    batch (fun _ => .timeout) retries = (.error .timeoutError, retries + 1) :=
  batchGo_allTimeout retries (retries + 1) 1 (by omega) (by omega) (by omega)

theorem batchGo_allTransient (retries code : Nat) (body : Compass.JVal)
    (hc : transientStatus code = true) :
    ∀ (fuel attempt : Nat), attempt + fuel = retries + 2 → 1 ≤ attempt →
      attempt ≤ retries + 1 →
      batchGo (fun _ => .resp code body) retries attempt fuel =
        (.error (.httpStatusError code (Compass.statusMsg code)), retries + 1) := by
  intro fuel
  induction fuel with
  | zero => intro attempt h1 h2 h3; omega
  | succ f ih =>
    intro attempt h1 h2 h3
    by_cases hle : attempt ≤ retries
    · simp only [batchGo, if_pos hle, hc, if_true]
      exact ih (attempt + 1) (by omega) (by omega) (by omega)
    · have : attempt = retries + 1 := by omega
      subst this
      simp [batchGo, hle, hc]

theorem batch_allTransient (retries code : Nat) (body : Compass.JVal)
    (hc : transientStatus code = true) :
    batch (fun _ => .resp code body) retries =
      (.error (.httpStatusError code (Compass.statusMsg code)), retries + 1) :=
  batchGo_allTransient retries code body hc (retries + 1) 1 (by omega) (by omega) (by omega)

theorem fetchGo_allOk (env : Nat → Nat → Compass.HttpOutcome) (retries : Nat)
    (rws : Nat → List XRow) :
    ∀ (cs : List (List String)) (i : Nat),
      (∀ j, j < cs.length → batch (env (i + j)) retries = (.ok (rws (i + j)), 1)) →
      fetchGo env retries i cs =
        (.ok ((List.range cs.length).map (fun j => rws (i + j))), cs.length) := by
  intro cs
  induction cs with
  | nil => intro i _; rfl
  | cons c cs ih =>
    intro i h
    have h0 : batch (env i) retries = (.ok (rws i), 1) := h 0 (by simp)
    have hrest : ∀ j, j < cs.length →
        batch (env (i + 1 + j)) retries = (.ok (rws (i + 1 + j)), 1) := by
      intro j hj
      have := h (j + 1) (by simp; omega)
      rwa [show i + (j + 1) = i + 1 + j by omega] at this
    have hmap : List.map (fun j => rws (i + 1 + j)) (List.range cs.length) =
        List.map ((fun j => rws (i + j)) ∘ Nat.succ) (List.range cs.length) :=
      List.map_congr_left (fun j _ => by
        show rws (i + 1 + j) = rws (i + Nat.succ j)
        rw [show i + 1 + j = i + Nat.succ j by omega])
    simp only [fetchGo, h0, ih (i + 1) hrest, List.length_cons, List.range_succ_eq_map,
      List.map_cons, List.map_map, Nat.add_zero, hmap]
    exact congrArg₂ Prod.mk rfl (by omega)

end Extractors

theorem isNull_false_ne {v : JVal} (h : isNull v = false) : v ≠ .null := by
  intro hv
  subst hv
  exact absurd h (by simp [isNull])

theorem pyTake_len (s : String) (n : Nat) : pyLen (pyTake s n) ≤ n := by
  simp only [pyLen, pyTake, List.length_take]
  exact min_le_left _ _

namespace Extractors

theorem rowsOfMap_mem {d : String} {m : List (String × Compass.JVal)} {rows : List XRow}
    (h : rowsOfMap d m = .ok rows) :
    ∀ r ∈ rows, ∃ v, (r.currency_code, v) ∈ m ∧ v ≠ .null ∧
      Compass.pyFloat v = .ok r.rate_to_usd := by
  induction m generalizing rows with
  | nil =>
    intro r hr
    rw [rowsOfMap] at h
    rw [← Except.ok.inj h] at hr
    cases hr
  | cons p rest ih =>
    intro r hr
    obtain ⟨code, val⟩ := p
    rw [rowsOfMap] at h
    by_cases hn : Compass.isNull val = true
    · rw [if_pos hn] at h
      obtain ⟨v, hv1, hv2, hv3⟩ := ih h r hr
      exact ⟨v, List.mem_cons_of_mem _ hv1, hv2, hv3⟩
    · rw [if_neg hn] at h
      cases hf : Compass.pyFloat val with
      | error m2 => rw [hf] at h; cases h
      | ok q =>
        rw [hf] at h
        cases ht : rowsOfMap d rest with
        | error e2 => rw [ht] at h; cases h
        | ok tl =>
          rw [ht] at h
          rw [← Except.ok.inj h] at hr
          rcases List.mem_cons.mp hr with rfl | hr2
          · exact ⟨val, List.mem_cons_self _ _,
              Compass.isNull_false_ne (Bool.eq_false_iff.mpr hn), hf⟩
          · obtain ⟨v, hv1, hv2, hv3⟩ := ih ht r hr2
            exact ⟨v, List.mem_cons_of_mem _ hv1, hv2, hv3⟩

end Extractors

namespace Extractor

theorem quotesRowsOfMap_mem {source d : String} {m : List (String × Compass.JVal)}
    {rows : List Extractors.XRow} (h : quotesRowsOfMap source d m = .ok rows) :
    ∀ r ∈ rows, ∃ pair v, (pair, v) ∈ m ∧
      Compass.pyStartsWith (Compass.pyUpper pair) source = true ∧ v ≠ .null ∧
      r.currency_code = Compass.pyUpper (Compass.pyDrop pair (Compass.pyLen source)) ∧
      Compass.pyFloat v = .ok r.rate_to_usd := by
  induction m generalizing rows with
  | nil =>
    intro r hr
    rw [quotesRowsOfMap] at h
    rw [← Except.ok.inj h] at hr
    cases hr
  | cons p rest ih =>
    intro r hr
    obtain ⟨pair, val⟩ := p
    rw [quotesRowsOfMap] at h
    by_cases hc : (Compass.pyStartsWith (Compass.pyUpper pair) source &&
        !Compass.isNull val) = true
    · rw [if_pos hc] at h
      obtain ⟨hst, hnn⟩ := Bool.and_eq_true_iff.mp hc
      cases hf : Compass.pyFloat val with
      | error m2 => rw [hf] at h; cases h
      | ok q =>
        rw [hf] at h
        cases ht : quotesRowsOfMap source d rest with
        | error e2 => rw [ht] at h; cases h
        | ok tl =>
          rw [ht] at h
          rw [← Except.ok.inj h] at hr
          rcases List.mem_cons.mp hr with rfl | hr2
          · refine ⟨pair, val, List.mem_cons_self _ _, hst, ?_, rfl, hf⟩
            have : Compass.isNull val = false := by
              cases hx : Compass.isNull val
              · rfl
              · rw [hx] at hnn; cases hnn
            exact Compass.isNull_false_ne this
          · obtain ⟨p2, v, hv1, hv2, hv3, hv4, hv5⟩ := ih ht r hr2
            exact ⟨p2, v, List.mem_cons_of_mem _ hv1, hv2, hv3, hv4, hv5⟩
    · rw [if_neg hc] at h
      obtain ⟨p2, v, hv1, hv2, hv3, hv4, hv5⟩ := ih h r hr
      exact ⟨p2, v, List.mem_cons_of_mem _ hv1, hv2, hv3, hv4, hv5⟩

end Extractor

namespace ExchangeRates

theorem dispatch_keyMissing (env : Env) (st : Settings) (symbols : List String)
    (startD endD base : String)
    (hs : sanitize symbols ≠ []) (hp : providerIsApilayer st = true)
    (hk : keyMissing st = true) :
    fetch_timeseries env st symbols startD endD base =
      (fetchProvider env (frReq symbols startD endD "EUR"),
       [frReq symbols startD endD "EUR"]) := by
  simp [fetch_timeseries, hs, hp, hk]

theorem dispatch_ok (env : Env) (st : Settings) (symbols : List String)
    (startD endD base : String) (df : List RateRow)
    (hs : sanitize symbols ≠ []) (hp : providerIsApilayer st = true)
    (hk : keyMissing st = false)
    (hok : fetchProvider env (apiReq symbols startD endD base) = .ok df) :
    fetch_timeseries env st symbols startD endD base =
      (.ok df, [apiReq symbols startD endD base]) := by
  simp [fetch_timeseries, hs, hp, hk, hok]

theorem dispatch_retryError (env : Env) (st : Settings) (symbols : List String)
    (startD endD base : String) (e : Compass.PyErr)
    (hs : sanitize symbols ≠ []) (hp : providerIsApilayer st = true)
    (hk : keyMissing st = false)
    (hfail : fetchProvider env (apiReq symbols startD endD base) = .error (.retryError e)) :
    fetch_timeseries env st symbols startD endD base =
      (fetchProvider env (frReq symbols startD endD "EUR"),
       [apiReq symbols startD endD base, frReq symbols startD endD "EUR"]) := by
  simp [fetch_timeseries, hs, hp, hk, hfail]

theorem dispatch_runtimeMatch_retryOk (env : Env) (st : Settings) (symbols : List String)
    (startD endD base : String) (m : String) (df : List RateRow)
    (hs : sanitize symbols ≠ []) (hp : providerIsApilayer st = true)
    (hk : keyMissing st = false)
    (hfail : fetchProvider env (apiReq symbols startD endD base) = .error (.runtimeError m))
    (hm : msgMatches m = true)
    (hretry : fetchProvider env (apiReq symbols startD endD "EUR") = .ok df) :
    fetch_timeseries env st symbols startD endD base =
      (.ok df, [apiReq symbols startD endD base, apiReq symbols startD endD "EUR"]) := by
  simp [fetch_timeseries, hs, hp, hk, hfail, hm, hretry]

theorem dispatch_runtimeMatch_retryFails (env : Env) (st : Settings) (symbols : List String)
    (startD endD base : String) (m : String) (e2 : Compass.PyErr)
    (hs : sanitize symbols ≠ []) (hp : providerIsApilayer st = true)
    (hk : keyMissing st = false)
    (hfail : fetchProvider env (apiReq symbols startD endD base) = .error (.runtimeError m))
    (hm : msgMatches m = true)
    (hretry : fetchProvider env (apiReq symbols startD endD "EUR") = .error e2) :
    fetch_timeseries env st symbols startD endD base =
      (fetchProvider env (frReq symbols startD endD "EUR"),
       [apiReq symbols startD endD base, apiReq symbols startD endD "EUR",
        frReq symbols startD endD "EUR"]) := by
  simp [fetch_timeseries, hs, hp, hk, hfail, hm, hretry]

theorem dispatch_runtimeNoMatch (env : Env) (st : Settings) (symbols : List String)
    (startD endD base : String) (m : String)
    (hs : sanitize symbols ≠ []) (hp : providerIsApilayer st = true)
    (hk : keyMissing st = false)
    (hfail : fetchProvider env (apiReq symbols startD endD base) = .error (.runtimeError m))
    (hm : msgMatches m = false) :
    fetch_timeseries env st symbols startD endD base =
      (fetchProvider env (frReq symbols startD endD base),
       [apiReq symbols startD endD base, frReq symbols startD endD base]) := by
  simp [fetch_timeseries, hs, hp, hk, hfail, hm]

theorem dispatch_free (env : Env) (st : Settings) (symbols : List String)
    (startD endD base : String)
    (hs : sanitize symbols ≠ []) (hp : providerIsApilayer st = false) :
    fetch_timeseries env st symbols startD endD base =
      (fetchProvider env (frReq symbols startD endD base),
       [frReq symbols startD endD base]) := by
  simp [fetch_timeseries, hs, hp]

end ExchangeRates

open ExchangeRates in
/-- Settings with the keyed APILayer provider configured and a usable key. -/
def st1 : Settings := ⟨"apilayer", "k123"⟩

open ExchangeRates in
/-- Settings with no provider configured (free Frankfurter path). -/
def st0 : Settings := ⟨"", ""⟩

/-- A well-formed provider response payload (a Frankfurter-style body carrying
its own base). -/
def goodBody1 : JVal :=
  .obj [("base", .str "EUR"), ("rates", .obj [("2024-01-02", .obj [("BRL", .num 5)])])]

open ExchangeRates in
/-- The normalized rows of `goodBody1`. -/
def rows1 : List RateRow := [⟨some "2024-01-02", "BRL", some 5, "EUR"⟩]

open ExchangeRates in
/-- Environment in which APILayer always answers HTTP 401 and Frankfurter
succeeds. -/
def env1 : Env := fun c _ =>
  match c.provider with
  | .apilayer => .resp 401 (.obj [])
  | .frankfurter => .resp 200 goodBody1

/-- An APILayer plan-restriction payload: HTTP 200 whose body carries error
code 105 (`base_currency ... restricted`). -/
def body105 : JVal :=
  .obj [("success", .bool false),
        ("error", .obj [("code", .num 105), ("info", .str "base_currency is restricted")])]

/-- The `RuntimeError` message `_normalize_timeseries_payload` raises on
`body105`. -/
def msg105 : String :=
  "Resposta sem \x27rates\x27 válida. Amostra: " ++ pyTake (pyStr body105) 300

open ExchangeRates in
/-- Environment in which APILayer is base-restricted: it rejects any base other
than EUR with the code-105 payload and succeeds for base EUR. -/
def env2 : Env := fun c _ =>
  match c.provider, c.base == "EUR" with
  | .apilayer, false => .resp 200 body105
  | .apilayer, true => .resp 200 goodBody1
  | .frankfurter, _ => .resp 200 goodBody1

open ExchangeRates in
/-- Environment in which APILayer always times out and Frankfurter succeeds. -/
def env3 : Env := fun c _ =>
  match c.provider with
  | .apilayer => .timeout
  | .frankfurter => .resp 200 goodBody1

open ExchangeRates in
/-- Environment in which every request succeeds with `goodBody1`. -/
def env4 : Env := fun _ _ => .resp 200 goodBody1

open ExchangeRates in
/-- C1: with the keyed (APILayer) provider configured and a valid key, a
primary request that fails with HTTP 401 or 403 makes the orchestrator call
the Frankfurter fallback exactly once, with base forced to "EUR", return that
fallback result, and never call the primary again; every normalized fallback
row carries the fallback response's base. -/
theorem C1_auth_failure_fallback
    (env : Env) (st : Settings) (symbols : List String) (startD endD base : String)
    (code : Nat) (bodies : Nat → JVal)
    (hs : sanitize symbols ≠ []) (hp : providerIsApilayer st = true)
    (hk : keyMissing st = false)
    (hcode : code = 401 ∨ code = 403)
    (h401 : ∀ i, env (apiReq symbols startD endD base) i = .resp code (bodies i)) :
    fetch_timeseries env st symbols startD endD base =
      (fetchProvider env (frReq symbols startD endD "EUR"),
       [apiReq symbols startD endD base, frReq symbols startD endD "EUR"]) ∧
    ∀ (data : JVal) (rows : List RateRow),
      normalize_timeseries_payload data "EUR" = .ok rows →
      ∀ r ∈ rows, r.base = baseOf data "EUR" := by
  constructor
  · have hfail : ∀ i, attemptFails (env (apiReq symbols startD endD base) i) = true := by
      intro i
      rw [h401 i]
      rcases hcode with rfl | rfl <;> rfl
    have hget := get_json_allFail _ hfail
    have hfp : fetchProvider env (apiReq symbols startD endD base) =
        .error (.retryError (attemptErr (env (apiReq symbols startD endD base) 4))) := by
      unfold fetchProvider
      rw [hget.1]
    exact dispatch_retryError env st symbols startD endD base _ hs hp hk hfp
  · intro data rows hn r hr
    exact normalize_ok_base hn r hr

open ExchangeRates in
/-- Witness for C1: APILayer answers 401, the orchestrator issues exactly one
Frankfurter call with base "EUR" after the one APILayer request, and returns
the fallback rows, which carry the fallback base "EUR". -/
theorem C1_witness :
    fetch_timeseries env1 st1 ["BRL"] "2024-01-01" "2024-01-10" "USD" =
      (.ok rows1,
       [apiReq ["BRL"] "2024-01-01" "2024-01-10" "USD",
        frReq ["BRL"] "2024-01-01" "2024-01-10" "EUR"]) := by
  have h := C1_auth_failure_fallback env1 st1 ["BRL"] "2024-01-01" "2024-01-10" "USD" 401
    (fun _ => .obj []) (by decide) (by decide) (by decide) (Or.inl rfl) (fun _ => rfl)
  rw [h.1]
  rfl

open ExchangeRates in
/-- C2: with the keyed provider configured, a primary failure whose message
mentions "base" together with "restrict" or "105" makes the orchestrator retry
the same keyed provider once with base "EUR"; the free fallback is called (with
base "EUR") exactly when that retry also fails. -/
theorem C2_restriction_retry
    (env : Env) (st : Settings) (symbols : List String) (startD endD base : String)
    (e : PyErr)
    (hs : sanitize symbols ≠ []) (hp : providerIsApilayer st = true)
    (hk : keyMissing st = false)
    (hfail : fetchProvider env (apiReq symbols startD endD base) = .error e)
    (hmatch : msgMatches (errStr e) = true) :
    (∀ df, fetchProvider env (apiReq symbols startD endD "EUR") = .ok df →
      fetch_timeseries env st symbols startD endD base =
        (.ok df, [apiReq symbols startD endD base, apiReq symbols startD endD "EUR"])) ∧
    (∀ e2, fetchProvider env (apiReq symbols startD endD "EUR") = .error e2 →
      fetch_timeseries env st symbols startD endD base =
        (fetchProvider env (frReq symbols startD endD "EUR"),
         [apiReq symbols startD endD base, apiReq symbols startD endD "EUR",
          frReq symbols startD endD "EUR"])) := by
  have hm : ∃ m, e = .runtimeError m ∧ msgMatches m = true := by
    rcases fetchProvider_error_shape hfail with ⟨e2, rfl⟩ | ⟨m, rfl⟩
    · rw [msgMatches_retryError e2] at hmatch
      cases hmatch
    · exact ⟨m, rfl, hmatch⟩
  obtain ⟨m, rfl, hmm⟩ := hm
  constructor
  · intro df hretry
    exact dispatch_runtimeMatch_retryOk env st symbols startD endD base m df
      hs hp hk hfail hmm hretry
  · intro e2 hretry
    exact dispatch_runtimeMatch_retryFails env st symbols startD endD base m e2
      hs hp hk hfail hmm hretry

open ExchangeRates in
/-- Witness for C2: against a base-restricted APILayer (code-105 payload for
base "USD"), the orchestrator retries APILayer once with base "EUR" and
succeeds there, without calling Frankfurter. -/
theorem C2_witness :
    fetch_timeseries env2 st1 ["BRL"] "2024-01-01" "2024-01-10" "USD" =
      (.ok rows1,
       [apiReq ["BRL"] "2024-01-01" "2024-01-10" "USD",
        apiReq ["BRL"] "2024-01-01" "2024-01-10" "EUR"]) := by
  have h := C2_restriction_retry env2 st1 ["BRL"] "2024-01-01" "2024-01-10" "USD"
    (.runtimeError msg105) (by decide) (by decide) (by decide) rfl (by decide)
  exact h.1 rows1 rfl

open ExchangeRates in
/-- Counterexample to C3: APILayer exhausts its retry budget on timeouts (a
failure that is neither auth nor base-restriction), and the orchestrator falls
back to Frankfurter with base "EUR" — not with the originally requested
"USD". -/
theorem C3_counterexample :
    fetchProvider env3 (apiReq ["BRL"] "2024-01-01" "2024-01-10" "USD") =
      .error (.retryError .timeoutError) ∧
    (fetch_timeseries env3 st1 ["BRL"] "2024-01-01" "2024-01-10" "USD").2 =
      [apiReq ["BRL"] "2024-01-01" "2024-01-10" "USD",
       frReq ["BRL"] "2024-01-01" "2024-01-10" "EUR"] ∧
    (frReq ["BRL"] "2024-01-01" "2024-01-10" "EUR").base ≠ "USD" :=
  ⟨rfl, rfl, by decide⟩

open ExchangeRates in
/-- C3 (amended): an unclassified primary failure triggers exactly one
fallback call to the free provider, but the base depends on the failure class:
retry exhaustion (`RetryError`) falls back with base forced to "EUR", while an
unclassified `RuntimeError` falls back with the originally requested base. -/
theorem C3_unclassified_fallback_bases
    (env : Env) (st : Settings) (symbols : List String) (startD endD base : String)
    (hs : sanitize symbols ≠ []) (hp : providerIsApilayer st = true)
    (hk : keyMissing st = false) :
    (∀ e, fetchProvider env (apiReq symbols startD endD base) = .error (.retryError e) →
      fetch_timeseries env st symbols startD endD base =
        (fetchProvider env (frReq symbols startD endD "EUR"),
         [apiReq symbols startD endD base, frReq symbols startD endD "EUR"])) ∧
    (∀ m, fetchProvider env (apiReq symbols startD endD base) = .error (.runtimeError m) →
      msgMatches m = false →
      fetch_timeseries env st symbols startD endD base =
        (fetchProvider env (frReq symbols startD endD base),
         [apiReq symbols startD endD base, frReq symbols startD endD base])) := by
  constructor
  · intro e hfail
    exact dispatch_retryError env st symbols startD endD base e hs hp hk hfail
  · intro m hfail hm
    exact dispatch_runtimeNoMatch env st symbols startD endD base m hs hp hk hfail hm

open ExchangeRates in
/-- Witness for the amended C3: timeout-exhaustion at APILayer produces exactly
one Frankfurter call with base "EUR" and returns its rows. -/
theorem C3_witness :
    fetch_timeseries env3 st1 ["BRL"] "2024-01-01" "2024-01-10" "USD" =
      (.ok rows1,
       [apiReq ["BRL"] "2024-01-01" "2024-01-10" "USD",
        frReq ["BRL"] "2024-01-01" "2024-01-10" "EUR"]) := by
  have h := C3_unclassified_fallback_bases env3 st1 ["BRL"] "2024-01-01" "2024-01-10" "USD"
    (by decide) (by decide) (by decide)
  rw [h.1 .timeoutError rfl]
  rfl

/-- Environment whose every attempt times out (never reached in the uses
below). -/
def envT : Nat → Nat → HttpOutcome := fun _ _ => .timeout

/-- Counterexample to C4: the multi-provider `fetch_timeseries` of
`exchangerates.py` has no window check at all — over an inclusive span of 731
days (well beyond 365) it issues a provider request and returns normally
instead of raising a window error. -/
theorem C4_counterexample :
    daysFromCivil 2022 1 1 - daysFromCivil 2020 1 1 = 731 ∧
    isoOfCivil 2020 1 1 = "2020-01-01" ∧
    isoOfCivil 2022 1 1 = "2022-01-01" ∧
    ExchangeRates.fetch_timeseries env4 st0 ["BRL"] "2020-01-01" "2022-01-01" "USD" =
      (.ok rows1, [ExchangeRates.frReq ["BRL"] "2020-01-01" "2022-01-01" "USD"]) :=
  ⟨by decide, by decide, by decide, rfl⟩

/-- C4 (amended): the batched extractor (`extractors.py`) raises the
window-too-large `ValueError` before any HTTP request (zero fetch-primitive
invocations) whenever the span exceeds 365 days; the multi-provider
`fetch_timeseries` (`exchangerates.py`) performs no window validation and
always issues its provider request. -/
theorem C4_window_check_batched_only
    (env : Nat → Nat → HttpOutcome) (symbols : List String) (s e mb rt : Nat)
    (hne : Extractors.xsanitize symbols ≠ []) (hle : s ≤ e) (hgt : 365 < e - s) :
    Extractors.fetch_timeseries env symbols s e mb rt =
      (.error (.valueError "Janela máxima para timeseries é 365 dias."), 0) ∧
    ∀ (env2 : ExchangeRates.Env) (st : ExchangeRates.Settings) (symbols2 : List String)
      (sD eD b : String),
      ExchangeRates.sanitize symbols2 ≠ [] → ExchangeRates.providerIsApilayer st = false →
      ExchangeRates.fetch_timeseries env2 st symbols2 sD eD b =
        (ExchangeRates.fetchProvider env2 (ExchangeRates.frReq symbols2 sD eD b),
         [ExchangeRates.frReq symbols2 sD eD b]) := by
  constructor
  · have h1 : (Extractors.xsanitize symbols).isEmpty = false := by
      cases hx : Extractors.xsanitize symbols with
      | nil => exact absurd hx hne
      | cons a l => rfl
    have h2 : decide (s > e) = false := decide_eq_false (by omega)
    unfold Extractors.fetch_timeseries
    rw [h1, h2]
    simp only [Bool.or_false, Bool.false_eq_true, if_false]
    rw [if_pos hgt]
  · intro env2 st symbols2 sD eD b hs2 hp2
    exact ExchangeRates.dispatch_free env2 st symbols2 sD eD b hs2 hp2

/-- Witness for the amended C4: a 400-day window aborts the batched extractor
with the window error and zero HTTP requests, while the multi-provider variant
issues its one Frankfurter request on any window. -/
theorem C4_witness :
    Extractors.fetch_timeseries envT ["BRL"] 0 400 20 3 =
      (.error (.valueError "Janela máxima para timeseries é 365 dias."), 0) ∧
    ExchangeRates.fetch_timeseries env4 st0 ["BRL"] "2020-01-01" "2022-01-01" "USD" =
      (ExchangeRates.fetchProvider env4
        (ExchangeRates.frReq ["BRL"] "2020-01-01" "2022-01-01" "USD"),
       [ExchangeRates.frReq ["BRL"] "2020-01-01" "2022-01-01" "USD"]) := by
  have h := C4_window_check_batched_only envT ["BRL"] 0 400 20 3
    (by decide) (by decide) (by decide)
  exact ⟨h.1, h.2 env4 st0 ["BRL"] "2020-01-01" "2022-01-01" "USD" (by decide) (by decide)⟩

/-- Counterexample to C5: the tenacity-wrapped `_get_json` retries on *every*
exception, so a request answered 401 on each attempt is issued 5 times against
the same provider before surfacing as `RetryError` — a 401 is not "never
retried". -/
theorem C5_counterexample :
    ExchangeRates.get_json_calls (fun _ => .resp 401 (.obj [])) = 5 ∧
    ExchangeRates.get_json (fun _ => .resp 401 (.obj [])) =
      .error (.retryError (ExchangeRates.attemptErr (.resp 401 (.obj [])))) ∧
    (5 : Nat) ≠ 1 :=
  ⟨rfl, rfl, by decide⟩

/-- C5 (amended): the hand-written retry loop of `extractors.py` retries only
on timeout or a status in {429, 500, 502, 503, 504} up to `retries` extra
attempts and re-raises any other failure after a single request (in particular
a 401/403 is never retried there); the tenacity-wrapped `_get_json` of
`exchangerates.py` instead retries every failure, 401/403 included, making 5
attempts before raising `RetryError`. -/
theorem C5_retry_policies
    (att : Nat → HttpOutcome) (retries code : Nat) (body : JVal) :
    (att 1 = .resp code body → Extractors.transientStatus code = false → 400 ≤ code →
      Extractors.batch att retries =
        (.error (.httpStatusError code (statusMsg code)), 1)) ∧
    (att 1 = .resp code body → Extractors.transientStatus code = false → ¬400 ≤ code →
      Extractors.batch att retries = (Extractors.handleBody body, 1)) ∧
    Extractors.batch (fun _ => .timeout) retries = (.error .timeoutError, retries + 1) ∧
    (Extractors.transientStatus code = true →
      Extractors.batch (fun _ => .resp code body) retries =
        (.error (.httpStatusError code (statusMsg code)), retries + 1)) ∧
    ((∀ i, ExchangeRates.attemptFails (att i) = true) →
      ExchangeRates.get_json att = .error (.retryError (ExchangeRates.attemptErr (att 4))) ∧
      ExchangeRates.get_json_calls att = 5) := by
  refine ⟨?_, ?_, Extractors.batch_allTimeout retries, ?_, ?_⟩
  · intro h hc h4
    exact Extractors.batch_first_nonTransientError att retries code body h hc h4
  · intro h hc h4
    exact Extractors.batch_first_ok att retries code body h hc h4
  · intro hc
    exact Extractors.batch_allTransient retries code body hc
  · intro hf
    exact ExchangeRates.get_json_allFail att hf

/-- The attempt oracle answering 401 forever. -/
def att401 : Nat → HttpOutcome := fun _ => .resp 401 (.obj [])

/-- Witness for the amended C5: a 401 stops the manual loop after exactly one
request; constant timeouts and constant 500s use the full budget of
`retries + 1` requests; `_get_json` issues 5 requests against a constant
401. -/
theorem C5_witness :
    Extractors.batch att401 3 = (.error (.httpStatusError 401 (statusMsg 401)), 1) ∧
    Extractors.batch (fun _ => .timeout) 3 = (.error .timeoutError, 4) ∧
    Extractors.batch (fun _ => .resp 500 (.obj [])) 3 =
      (.error (.httpStatusError 500 (statusMsg 500)), 4) ∧
    ExchangeRates.get_json_calls att401 = 5 := by
  have h := C5_retry_policies att401 3 401 (.obj [])
  have h5 := C5_retry_policies (fun _ => .resp 500 (.obj [])) 3 500 (.obj [])
  exact ⟨h.1 rfl (by decide) (by decide), h.2.2.1, h5.2.2.2.1 (by decide),
    (h.2.2.2.2 (fun _ => rfl)).2⟩

/-- Counterexample to C6: on an empty symbol list the multi-provider
`fetch_timeseries` raises `ValueError` instead of returning an empty table. -/
theorem C6_counterexample :
    ExchangeRates.fetch_timeseries env4 st0 [] "2024-01-01" "2024-01-10" "USD" =
      (.error (.valueError "Informe ao menos um símbolo em `symbols`."), []) ∧
    ExchangeRates.fetch_timeseries env4 st0 ["  "] "2024-01-01" "2024-01-10" "USD" =
      (.error (.valueError "Informe ao menos um símbolo em `symbols`."), []) :=
  ⟨rfl, rfl⟩

/-- C6 (amended): the batched extractor returns a zero-row frame with the full
canonical column set and issues no HTTP request when the sanitized symbol set
is empty or the start date is after the end date; the multi-provider variant
instead raises `ValueError` on an empty sanitized symbol set (and never
compares the two dates). -/
theorem C6_empty_inputs
    (env : Nat → Nat → HttpOutcome) (symbols : List String) (s e mb rt : Nat)
    (h : Extractors.xsanitize symbols = [] ∨ e < s) :
    Extractors.fetch_timeseries env symbols s e mb rt =
      (.ok ⟨Extractors.xCols, []⟩, 0) ∧
    ∀ (env2 : ExchangeRates.Env) (st : ExchangeRates.Settings) (sD eD b : String)
      (symbols2 : List String), ExchangeRates.sanitize symbols2 = [] →
      ExchangeRates.fetch_timeseries env2 st symbols2 sD eD b =
        (.error (.valueError "Informe ao menos um símbolo em `symbols`."), []) := by
  constructor
  · unfold Extractors.fetch_timeseries
    have hcond : ((Extractors.xsanitize symbols).isEmpty || decide (s > e)) = true := by
      rcases h with h | h
      · rw [h]
        rfl
      · rw [decide_eq_true (by omega : s > e), Bool.or_true]
    rw [if_pos hcond]
  · intro env2 st sD eD b symbols2 hs2
    unfold ExchangeRates.fetch_timeseries
    rw [if_pos hs2]

/-- Witness for the amended C6: a symbol list whose only entry is not a
3-letter code sanitizes to nothing and yields the empty frame with zero HTTP
requests; the multi-provider variant raises on a list sanitizing to nothing. -/
theorem C6_witness :
    Extractors.fetch_timeseries envT ["ABCD"] 0 10 20 3 =
      (.ok ⟨Extractors.xCols, []⟩, 0) ∧
    ExchangeRates.fetch_timeseries env4 st0 [""] "2024-01-01" "2024-01-10" "USD" =
      (.error (.valueError "Informe ao menos um símbolo em `symbols`."), []) := by
  have h := C6_empty_inputs envT ["ABCD"] 0 10 20 3 (Or.inl (by decide))
  exact ⟨h.1, h.2 env4 st0 "2024-01-01" "2024-01-10" "USD" [""] (by decide)⟩

/-- The spec scenario body: one date with a numeric EUR rate and a null BRL
rate. -/
def body7 : JVal :=
  .obj [("rates", .obj [("2024-01-01", .obj [("EUR", .num (9/10)), ("BRL", .null)])])]

/-- Counterexample to C7: the multi-provider normalizer
`_normalize_timeseries_payload` does *not* drop the null BRL entry — it keeps
it as a NaN-rate row, so the spec body yields two rows, not one. -/
theorem C7_counterexample :
    ExchangeRates.normalize_timeseries_payload body7 "EUR" =
      .ok [⟨some "2024-01-01", "BRL", none, "EUR"⟩,
           ⟨some "2024-01-01", "EUR", some (9/10), "EUR"⟩] ∧
    ([⟨some "2024-01-01", "BRL", none, "EUR"⟩,
      ⟨some "2024-01-01", "EUR", some (9/10), "EUR"⟩] :
        List ExchangeRates.RateRow).length = 2 :=
  ⟨rfl, rfl⟩

/-- The spec scenario body extended with a zero rate. -/
def body7x : JVal :=
  .obj [("rates", .obj [("2024-01-01",
    .obj [("EUR", .num (9/10)), ("BRL", .null), ("JPY", .num 0)])])]

/-- C7 (amended): the batched extractor's normalizer drops exactly the
null-rate entries and keeps zero rates (the spec body extended with a zero
JPY rate yields the EUR and JPY rows only); every row it emits stems from a
non-null entry of the payload.  The multi-provider normalizer instead keeps
null entries as NaN rows, which are dropped only downstream by
`transform_rates`. -/
theorem C7_null_dropped_zero_kept :
    Extractors.handleBody body7x =
      .ok [⟨"2024-01-01", "EUR", 9/10⟩, ⟨"2024-01-01", "JPY", 0⟩] ∧
    (∀ (d : String) (m : List (String × JVal)) (rows : List Extractors.XRow),
      Extractors.rowsOfMap d m = .ok rows →
      ∀ r ∈ rows, ∃ v, (r.currency_code, v) ∈ m ∧ v ≠ .null ∧
        pyFloat v = .ok r.rate_to_usd) ∧
    TransformerRates.transform_rates
      [⟨some "2024-01-01", "BRL", none, "EUR"⟩,
       ⟨some "2024-01-01", "EUR", some (9/10), "EUR"⟩] =
      .ok [⟨some "2024-01-01", "EUR", some (9/10), "EUR"⟩] := by
  refine ⟨rfl, ?_, rfl⟩
  intro d m rows h r hr
  exact Extractors.rowsOfMap_mem h r hr

/-- Witness for the amended C7: the extended spec body evaluates to exactly
the EUR and JPY rows, and the emitted EUR row is traced back to the non-null
EUR entry of the payload. -/
theorem C7_witness :
    Extractors.handleBody body7x =
      .ok [⟨"2024-01-01", "EUR", 9/10⟩, ⟨"2024-01-01", "JPY", 0⟩] ∧
    ∃ v, (("EUR" : String), v) ∈
        [("EUR", JVal.num (9/10)), ("BRL", JVal.null), ("JPY", JVal.num 0)] ∧
      v ≠ .null ∧ pyFloat v = .ok (9/10) := by
  have h := C7_null_dropped_zero_kept
  refine ⟨h.1, ?_⟩
  exact h.2.1 "2024-01-01"
    [("EUR", JVal.num (9/10)), ("BRL", JVal.null), ("JPY", JVal.num 0)]
    [⟨"2024-01-01", "EUR", 9/10⟩, ⟨"2024-01-01", "JPY", 0⟩] rfl
    ⟨"2024-01-01", "EUR", 9/10⟩ (List.mem_cons_self _ _)

/-- Counterexample to C8: a body whose `quotes` (resp. `rates`) mapping is an
*empty* dict contains no valid non-empty mapping of either shape, yet the
`/timeframe` extractor accepts it and yields zero rows instead of raising the
unrecognized-shape error. -/
theorem C8_counterexample :
    Extractor.handleBody (.obj [("rates", .obj [])]) = .ok [] ∧
    Extractor.handleBody (.obj [("quotes", .obj [])]) = .ok [] :=
  ⟨rfl, rfl⟩

/-- C8 (amended): the unrecognized-shape error — carrying the raw body sample
truncated to its first 300 characters — is raised exactly when *neither* key
holds a dict value (an empty dict passes and yields zero rows); in the
source-prefixed shape every emitted row stems from a non-null pair whose
uppercased key starts with the source code, with that code stripped off to
recover the bare currency code. -/
theorem C8_shape_error_and_source_stripping
    (data : JVal)
    (hsf : successIsFalse data = false)
    (hq : ∀ qs, jGet data "quotes" ≠ some (.obj qs))
    (hr : ∀ fs, jGet data "rates" ≠ some (.obj fs)) :
    Extractor.handleBody data =
      .error (.runtimeError
        ("Resposta sem \x27quotes\x27 ou \x27rates\x27 válida. Amostra: " ++
          pyTake (pyStr data) 300)) ∧
    pyLen (pyTake (pyStr data) 300) ≤ 300 ∧
    ∀ (source d : String) (m : List (String × JVal)) (rows : List Extractors.XRow),
      Extractor.quotesRowsOfMap source d m = .ok rows →
      ∀ r ∈ rows, ∃ pair v, (pair, v) ∈ m ∧
        pyStartsWith (pyUpper pair) source = true ∧ v ≠ .null ∧
        r.currency_code = pyUpper (pyDrop pair (pyLen source)) ∧
        pyFloat v = .ok r.rate_to_usd := by
  refine ⟨?_, pyTake_len _ _, ?_⟩
  · unfold Extractor.handleBody
    rw [hsf]
    simp only [Bool.false_eq_true, if_false]
  · intro source d m rows h r hrm
    exact Extractor.quotesRowsOfMap_mem h r hrm

/-- A body with neither shape present. -/
def dataC8 : JVal := .obj [("foo", .num 1)]

/-- Witness for the amended C8: a shapeless body raises the sampled error, and
in the source-prefixed shape the pair "USDEUR" is kept (stripped to "EUR")
while the mismatched "XXXAAA" is skipped. -/
theorem C8_witness :
    Extractor.handleBody dataC8 =
      .error (.runtimeError
        ("Resposta sem \x27quotes\x27 ou \x27rates\x27 válida. Amostra: " ++
          pyTake (pyStr dataC8) 300)) ∧
    pyLen (pyTake (pyStr dataC8) 300) ≤ 300 ∧
    Extractor.quotesRowsOfMap "USD" "2024-01-01"
      [("USDEUR", .num 2), ("XXXAAA", .num 3)] = .ok [⟨"2024-01-01", "EUR", 2⟩] ∧
    ∃ pair v, (pair, v) ∈ [("USDEUR", JVal.num 2), ("XXXAAA", JVal.num 3)] ∧
      pyStartsWith (pyUpper pair) "USD" = true ∧ v ≠ .null ∧
      ("EUR" : String) = pyUpper (pyDrop pair (pyLen "USD")) ∧ pyFloat v = .ok 2 := by
  have h := C8_shape_error_and_source_stripping dataC8 rfl
    (fun qs hqs => Option.noConfusion hqs) (fun fs hfs => Option.noConfusion hfs)
  refine ⟨h.1, h.2.1, rfl, ?_⟩
  exact h.2.2 "USD" "2024-01-01" [("USDEUR", .num 2), ("XXXAAA", .num 3)]
    [⟨"2024-01-01", "EUR", 2⟩] rfl ⟨"2024-01-01", "EUR", 2⟩ (List.mem_cons_self _ _)

/-- C9: the batched extractor splits the sanitized symbols into consecutive
chunks of at most the batch cap, issues exactly one upstream request per
chunk (when each first attempt succeeds), and returns the concatenation of all
chunk rows in order, losing none. -/
theorem C9_batching
    (env : Nat → Nat → HttpOutcome) (symbols : List String) (s e rt : Nat)
    (bodies : Nat → JVal) (rws : Nat → List Extractors.XRow)
    (hne : Extractors.xsanitize symbols ≠ [])
    (hd : ¬ s > e) (hw : ¬ 365 < e - s)
    (hb : ∀ j, j < (Extractors.chunk (Extractors.xsanitize symbols) 20).length →
      env j 1 = .resp 200 (bodies j))
    (hrows : ∀ j, j < (Extractors.chunk (Extractors.xsanitize symbols) 20).length →
      Extractors.handleBody (bodies j) = .ok (rws j)) :
    Extractors.fetch_timeseries env symbols s e 20 rt =
      (.ok ⟨Extractors.xCols,
        ((List.range (Extractors.chunk (Extractors.xsanitize symbols) 20).length).map
          rws).flatten⟩,
       (Extractors.chunk (Extractors.xsanitize symbols) 20).length) ∧
    (Extractors.chunk (Extractors.xsanitize symbols) 20).flatten =
      Extractors.xsanitize symbols ∧
    ∀ c ∈ Extractors.chunk (Extractors.xsanitize symbols) 20, c.length ≤ 20 := by
  refine ⟨?_, Extractors.chunk_flatten _ 20 (by omega),
    fun c hc => Extractors.chunk_size _ 20 c hc⟩
  have hbatch : ∀ j, j < (Extractors.chunk (Extractors.xsanitize symbols) 20).length →
      Extractors.batch (env j) rt = (.ok (rws j), 1) := by
    intro j hj
    rw [Extractors.batch_first_ok (env j) rt 200 (bodies j) (hb j hj) (by decide) (by decide),
      hrows j hj]
  have h1 : (Extractors.xsanitize symbols).isEmpty = false := by
    cases hx : Extractors.xsanitize symbols with
    | nil => exact absurd hx hne
    | cons a l => rfl
  have h2 : decide (s > e) = false := decide_eq_false hd
  unfold Extractors.fetch_timeseries
  rw [h1, h2]
  simp only [Bool.or_false, Bool.false_eq_true, if_false]
  rw [if_neg hw]
  have hgo := Extractors.fetchGo_allOk env rt rws
    (Extractors.chunk (Extractors.xsanitize symbols) 20) 0
    (fun j hj => by rw [Nat.zero_add]; exact hbatch j hj)
  rw [hgo]
  have hmap : (List.range (Extractors.chunk (Extractors.xsanitize symbols) 20).length).map
      (fun j => rws (0 + j)) =
      (List.range (Extractors.chunk (Extractors.xsanitize symbols) 20).length).map rws :=
    List.map_congr_left (fun j _ => by rw [Nat.zero_add])
  rw [hmap]

/-- The 45 distinct valid symbols of the batch-splitting scenario. -/
def sym45 : List String :=
  ["AAA", "AAB", "AAC", "AAD", "AAE", "AAF", "AAG", "AAH", "AAI", "AAJ",
   "AAK", "AAL", "AAM", "AAN", "AAO", "AAP", "AAQ", "AAR", "AAS", "AAT",
   "AAU", "AAV", "AAW", "AAX", "AAY", "AAZ", "ABA", "ABB", "ABC", "ABD",
   "ABE", "ABF", "ABG", "ABH", "ABI", "ABJ", "ABK", "ABL", "ABM", "ABN",
   "ABO", "ABP", "ABQ", "ABR", "ABS"]

/-- A response body with one rate row. -/
def body9 : JVal := .obj [("rates", .obj [("2024-01-01", .obj [("USD", .num 2)])])]

/-- Environment answering `body9` on every attempt of every batch. -/
def env9 : Nat → Nat → HttpOutcome := fun _ _ => .resp 200 body9

/-- The rows of `body9`. -/
def rows9 : List Extractors.XRow := [⟨"2024-01-01", "USD", 2⟩]

/-- Witness for C9: 45 distinct valid symbols with cap 20 produce exactly 3
upstream calls with batch sizes 20/20/5, and the result concatenates the three
batch results. -/
theorem C9_witness :
    Extractors.fetch_timeseries env9 sym45 0 10 20 3 =
      (.ok ⟨Extractors.xCols,
        [⟨"2024-01-01", "USD", 2⟩, ⟨"2024-01-01", "USD", 2⟩, ⟨"2024-01-01", "USD", 2⟩]⟩,
       3) ∧
    (Extractors.chunk (Extractors.xsanitize sym45) 20).map List.length = [20, 20, 5] := by
  have h := C9_batching env9 sym45 0 10 3 (fun _ => body9) (fun _ => rows9)
    (by decide) (by decide) (by decide) (fun _ _ => rfl) (fun _ _ => rfl)
  exact ⟨h.1.trans (by rfl), by decide⟩

/-- Sort key "(currency_code, date)" on extractor rows. -/
def xcdLe (a b : Extractors.XRow) : Bool :=
  if a.currency_code = b.currency_code then strLe a.date b.date
  else strLt a.currency_code b.currency_code

/-- Sort key "(date, currency_code)" on extractor rows. -/
def xdcLe (a b : Extractors.XRow) : Bool :=
  if a.date = b.date then strLe a.currency_code b.currency_code
  else strLt a.date b.date

/-- A response whose rows are in neither key order. -/
def body10 : JVal :=
  .obj [("rates", .obj [("2024-01-02", .obj [("EUR", .num 1)]),
                        ("2024-01-01", .obj [("BRL", .num 2)])])]

/-- Environment answering `body10`. -/
def env10 : Nat → Nat → HttpOutcome := fun _ _ => .resp 200 body10

/-- Counterexample to C10: the batched extractor returns its rows in raw
provider-response order without sorting — here a non-empty table sorted
neither by (currency_code, date) nor by (date, currency_code). -/
theorem C10_counterexample :
    Extractors.fetch_timeseries env10 ["EUR", "BRL"] 0 5 20 3 =
      (.ok ⟨Extractors.xCols,
        [⟨"2024-01-02", "EUR", 1⟩, ⟨"2024-01-01", "BRL", 2⟩]⟩, 1) ∧
    ¬ ([⟨"2024-01-02", "EUR", 1⟩, ⟨"2024-01-01", "BRL", 2⟩] :
        List Extractors.XRow).Pairwise (fun a b => xcdLe a b = true) ∧
    ¬ ([⟨"2024-01-02", "EUR", 1⟩, ⟨"2024-01-01", "BRL", 2⟩] :
        List Extractors.XRow).Pairwise (fun a b => xdcLe a b = true) :=
  ⟨rfl, by decide, by decide⟩

/-- C10 (amended): the two sorting call paths are deterministic — the
multi-provider normalizer always returns rows sorted by
(currency_code, date) and `transform_rates` always returns rows sorted by
(date, currency_code) — but the batched extractor path returns non-empty
tables in raw provider-response order, unsorted. -/
theorem C10_sorted_paths :
    (∀ (data : JVal) (bf : String) (rows : List ExchangeRates.RateRow),
      ExchangeRates.normalize_timeseries_payload data bf = .ok rows →
      rows.Pairwise (fun a b => ExchangeRates.rcLe a b = true)) ∧
    (∀ (df out : List ExchangeRates.RateRow),
      TransformerRates.transform_rates df = .ok out →
      out.Pairwise (fun a b => TransformerRates.tdLe a b = true)) :=
  ⟨fun _ _ _ h => ExchangeRates.normalize_ok_sorted h,
   fun _ _ h => TransformerRates.transform_rates_ok_sorted h⟩

/-- Witness for the amended C10: concrete sorted outputs of the two sorting
paths. -/
theorem C10_witness :
    ([⟨some "2024-01-01", "BRL", none, "EUR"⟩,
      ⟨some "2024-01-01", "EUR", some (9/10), "EUR"⟩] :
        List ExchangeRates.RateRow).Pairwise
      (fun a b => ExchangeRates.rcLe a b = true) ∧
    ([⟨some "2024-01-01", "EUR", some (9/10), "EUR"⟩] :
        List ExchangeRates.RateRow).Pairwise
      (fun a b => TransformerRates.tdLe a b = true) :=
  ⟨C10_sorted_paths.1 body7 "EUR" _ rfl,
   C10_sorted_paths.2
     [⟨some "2024-01-01", "BRL", none, "EUR"⟩,
      ⟨some "2024-01-01", "EUR", some (9/10), "EUR"⟩] _ rfl⟩

end Compass
